import Mathlib

/-!
Verification of the quota-state engine in scripts/openai_quota_guard.py.

The script keeps a single JSON record (date, buckets, plan_tokens_left) in a
state file, applies a daily rollover on load, and admits or denies a token
request against per-bucket daily limits.  We embed the record as a structure,
Python dicts as association lists, and the state file's content as an
Option of the record, where none stands for the contents that load_state
recovers from (file absent, or the open/json.load raising IOError or
json.JSONDecodeError).  Each cmd_* function takes the file content and the
current date string and returns its exit data together with the file content
after the call (unchanged when the Python code never calls save_state).
-/

namespace QuotaGuard

/-- A Python dict with string keys and integer values, as an association list
(insertion order kept, as in Python). -/
abbrev Buckets := List (String × Int)

/-- Membership test for a key, as the k in d test of a Python dict. -/
def containsKey (b : Buckets) (k : String) : Bool :=
  b.any (fun kv => kv.1 == k)

/-- Python d.get(k, dflt). -/
def dictGet (b : Buckets) (k : String) (dflt : Int) : Int :=
  match b.find? (fun kv => kv.1 == k) with
  | some kv => kv.2
  | none => dflt

/-- Python d[k] = v : update the existing entry in place, else append. -/
def dictSet (b : Buckets) (k : String) (v : Int) : Buckets :=
  if containsKey b k then
    b.map (fun kv => if kv.1 == k then (kv.1, v) else kv)
  else b ++ [(k, v)]

/-- Python d.setdefault(k, v) restricted to its effect on the dict. -/
def dictSetdefault (b : Buckets) (k : String) (v : Int) : Buckets :=
  if containsKey b k then b else b ++ [(k, v)]

/-- DAILY_LIMITS of the script: bucket id to daily token limit. -/
def DAILY_LIMITS : Buckets :=
  [("tokens_250k", 250000), ("tokens_2_5m", 2500000)]

/-- MODEL_BUCKETS of the script: model name to bucket id. -/
def MODEL_BUCKETS : List (String × String) :=
  [("gpt-5.1", "tokens_250k"),
   ("gpt-5.1-codex", "tokens_250k"),
   ("gpt-5", "tokens_250k"),
   ("gpt-5-codex", "tokens_250k"),
   ("gpt-5-chat-latest", "tokens_250k"),
   ("gpt-4.1", "tokens_250k"),
   ("gpt-4o", "tokens_250k"),
   ("o1", "tokens_250k"),
   ("o3", "tokens_250k"),
   ("gpt-5.1-codex-mini", "tokens_2_5m"),
   ("gpt-5-mini", "tokens_2_5m"),
   ("gpt-5-nano", "tokens_2_5m"),
   ("gpt-4.1-mini", "tokens_2_5m"),
   ("gpt-4.1-nano", "tokens_2_5m"),
   ("gpt-4o-mini", "tokens_2_5m"),
   ("o3-mini", "tokens_2_5m"),
   ("o4-mini", "tokens_2_5m"),
   ("codex-mini-latest", "tokens_2_5m")]

/-- The persisted record (date, buckets, plan_tokens_left). -/
structure QuotaState where
  date : String
  buckets : Buckets
  plan_tokens_left : Int
deriving DecidableEq

/-- default_state() of the script, with the current date passed explicitly. -/
def default_state (today : String) : QuotaState :=
  { date := today, buckets := DAILY_LIMITS, plan_tokens_left := 0 }

/-- The setdefault loop of load_state: fill every registry bucket missing from
the record with its daily limit. -/
def fillDefaults (b : Buckets) : Buckets :=
  DAILY_LIMITS.foldl (fun acc kv => dictSetdefault acc kv.1 kv.2) b

/-- The pure tail of load_state once a raw record was decoded: the date-based
rollover (preserving plan_tokens_left) followed by bucket default-filling.
This is the rollover policy reconcile(raw, today) of the spec. -/
def reconcile (raw : QuotaState) (today : String) : QuotaState :=
  let s := if raw.date = today then raw
           else { default_state today with plan_tokens_left := raw.plan_tokens_left }
  { s with buckets := fillDefaults s.buckets }

/-- load_state() of the script on the non-fatal contents: none models a
backing file that is absent or whose read/decode raised one of the two
exceptions the except clause catches (IOError, json.JSONDecodeError); a
decoded record goes through reconcile.  The contents on which load_state
instead dies with an uncaught exception are kept apart in load_state_total
below. -/
def load_state (file : Option QuotaState) (today : String) : QuotaState :=
  match file with
  | none => default_state today
  | some raw => reconcile raw today

/-- save_state() stamps the record's date with today before writing; this is
the record the file holds afterwards. -/
def save_stamp (s : QuotaState) (today : String) : QuotaState :=
  { s with date := today }

/-- The distinguishable backing-store contents load_state can meet, keeping
the failure classes apart that the Option model above collapses: a missing
file, a read failing with IOError, text that json.load rejects with
json.JSONDecodeError, bytes that are not valid UTF-8 (json.load then raises
UnicodeDecodeError, a ValueError that the except clause does not name), a
well-formed JSON document that is not an object (state.get then raises
AttributeError), and a decoded record. -/
inductive RawContent where
  | missing : RawContent
  | readFailed : RawContent
  | jsonMalformed : RawContent
  | badEncoding : RawContent
  | nonDict : RawContent
  | record : QuotaState → RawContent

/-- Outcome of running a Python function that may die with an uncaught
exception, named by its class. -/
inductive PyResult (α : Type) where
  | ok : α → PyResult α
  | raised : String → PyResult α

/-- load_state() over the full range of backing-store contents: the except
clause catches exactly (json.JSONDecodeError, IOError), so the missing,
read-failed and malformed-JSON contents recover to the default record, while
invalid UTF-8 and a non-object JSON document escape as uncaught exceptions
and kill the invocation. -/
def load_state_total (raw : RawContent) (today : String) : PyResult QuotaState :=
  match raw with
  | .missing => .ok (default_state today)
  | .readFailed => .ok (default_state today)
  | .jsonMalformed => .ok (default_state today)
  | .badEncoding => .raised "UnicodeDecodeError"
  | .nonDict => .raised "AttributeError"
  | .record r => .ok (reconcile r today)

/-- Whitespace test matching Python str.strip() on the code points the script
can meet (ASCII control whitespace, space, and U+0085). -/
def pySpaceNat (n : Nat) : Bool :=
  (9 ≤ n && n ≤ 13) || n == 32 || (28 ≤ n && n ≤ 31) || n == 133

/-- Whitespace test on characters. -/
def pySpace (c : Char) : Bool := pySpaceNat c.toNat

/-- Python str.lower() on one character (ASCII letters, as in the allowlist). -/
def pyLowerChar (c : Char) : Char :=
  if 65 ≤ c.toNat ∧ c.toNat ≤ 90 then Char.ofNat (c.toNat + 32) else c

/-- Python str.strip(): drop the maximal whitespace runs at both ends. -/
def pyStrip (l : List Char) : List Char :=
  List.rdropWhile pySpace (List.dropWhile pySpace l)

/-- model.strip().lower() as used by cmd_request. -/
def pyStripLower (s : String) : String :=
  String.mk (List.map pyLowerChar (pyStrip s.data))

/-- bucket_for_model() of the script: MODEL_BUCKETS.get(model). -/
def bucket_for_model (model : String) : Option String :=
  (MODEL_BUCKETS.find? (fun kv => kv.1 == model)).map (fun kv => kv.2)

/-- The decision cmd_request prints and encodes in its exit status. -/
inductive Decision where
  | deniedByPlan : Decision
  | deniedUnknownResource : Decision
  | deniedInvalidCost : Decision
  | deniedOverLimit : Int → Decision
  | admitted : String → Int → Decision
deriving DecidableEq

/-- Whether a decision is the admitting one. -/
def Decision.isAdmitted : Decision → Bool
  | .admitted _ _ => true
  | _ => false

/-- Exit status of cmd_request: 0 exactly on admission, 1 on every denial. -/
def decisionExit (d : Decision) : Int :=
  if d.isAdmitted then 0 else 1

/-- cmd_request() of the script: normalizes the model name, loads state, runs
the four checks in source order, and saves only on the admitting branch.
Returns the decision and the file content after the call. -/
def cmd_request (model : String) (tokens : Int) (file : Option QuotaState)
    (today : String) : Decision × Option QuotaState :=
  let m := pyStripLower model
  let state := load_state file today
  if 0 < state.plan_tokens_left then (Decision.deniedByPlan, file)
  else
    match bucket_for_model m with
    | none => (Decision.deniedUnknownResource, file)
    | some bucket =>
      if tokens ≤ 0 then (Decision.deniedInvalidCost, file)
      else
        let remaining := dictGet state.buckets bucket 0
        if remaining < tokens then (Decision.deniedOverLimit remaining, file)
        else
          let s1 := { state with buckets := dictSet state.buckets bucket (remaining - tokens) }
          (Decision.admitted bucket (remaining - tokens), some (save_stamp s1 today))

/-- cmd_set_plan() of the script: reject a negative count with exit 1 and no
write, else store the new plan_tokens_left. -/
def cmd_set_plan (tokens : Int) (file : Option QuotaState) (today : String) :
    Int × Option QuotaState :=
  if tokens < 0 then (1, file)
  else
    let state := load_state file today
    (0, some (save_stamp { state with plan_tokens_left := tokens } today))

/-- cmd_reset() of the script: fresh default record with the loaded record's
plan_tokens_left carried over, then saved. -/
def cmd_reset (file : Option QuotaState) (today : String) : Int × Option QuotaState :=
  let state := default_state today
  let prev := load_state file today
  (0, some (save_stamp { state with plan_tokens_left := prev.plan_tokens_left } today))

/- Dictionary lemmas used by the rollover and admission proofs. -/

theorem containsKey_dictSetdefault_self (b : Buckets) (k : String) (v : Int) :
    containsKey (dictSetdefault b k v) k = true := by
  unfold dictSetdefault
  split
  · assumption
  · simp [containsKey]

theorem containsKey_dictSetdefault_mono (b : Buckets) (k k1 : String) (v : Int)
    (h : containsKey b k = true) : containsKey (dictSetdefault b k1 v) k = true := by
  unfold dictSetdefault
  split
  · exact h
  · unfold containsKey at h ⊢
    simp only [List.any_append, h, Bool.true_or]

theorem dictSetdefault_of_contains (b : Buckets) (k : String) (v : Int)
    (h : containsKey b k = true) : dictSetdefault b k v = b := by
  unfold dictSetdefault
  simp [h]

theorem fillDefaults_eq (b : Buckets) :
    fillDefaults b =
      dictSetdefault (dictSetdefault b "tokens_250k" 250000) "tokens_2_5m" 2500000 := rfl

theorem fillDefaults_contains (b : Buckets) :
    containsKey (fillDefaults b) "tokens_250k" = true ∧
    containsKey (fillDefaults b) "tokens_2_5m" = true := by
  rw [fillDefaults_eq]
  exact ⟨containsKey_dictSetdefault_mono _ _ _ _ (containsKey_dictSetdefault_self b _ _),
    containsKey_dictSetdefault_self _ _ _⟩

theorem fillDefaults_idem (b : Buckets) : fillDefaults (fillDefaults b) = fillDefaults b := by
  obtain ⟨h1, h2⟩ := fillDefaults_contains b
  rw [fillDefaults_eq (fillDefaults b), dictSetdefault_of_contains _ _ _ h1,
    dictSetdefault_of_contains _ _ _ h2]

/- Shape lemmas for reconcile. -/

theorem reconcile_date (r : QuotaState) (d : String) : (reconcile r d).date = d := by
  unfold reconcile
  by_cases h : r.date = d <;> simp [h, default_state]

theorem reconcile_buckets (r : QuotaState) (d : String) :
    (reconcile r d).buckets = fillDefaults (if r.date = d then r.buckets else DAILY_LIMITS) := by
  unfold reconcile
  by_cases h : r.date = d <;> simp [h, default_state]

theorem reconcile_plan_eq (r : QuotaState) (d : String) :
    (reconcile r d).plan_tokens_left = r.plan_tokens_left := by
  unfold reconcile
  by_cases h : r.date = d <;> simp [h, default_state]

theorem reconcile_of_date_eq (x : QuotaState) (d : String) (h : x.date = d) :
    reconcile x d = { x with buckets := fillDefaults x.buckets } := by
  unfold reconcile
  simp [h]

/-- C4: applying the rollover policy twice with the same date equals applying
it once. -/
theorem reconcile_idempotent (r : QuotaState) (d : String) :
    reconcile (reconcile r d) d = reconcile r d := by
  have hb : fillDefaults (reconcile r d).buckets = (reconcile r d).buckets := by
    rw [reconcile_buckets, fillDefaults_idem, ← reconcile_buckets]
  rw [reconcile_of_date_eq _ _ (reconcile_date r d), hb]

/- Character-level facts about the strip and lower normalization. -/

theorem toNat_ofNat_valid {n : Nat} (h : n < 55296) : (Char.ofNat n).toNat = n := by
  unfold Char.ofNat
  rw [dif_pos (Or.inl h)]
  rfl

theorem pyLowerChar_toNat (c : Char) :
    (pyLowerChar c).toNat =
      if 65 ≤ c.toNat ∧ c.toNat ≤ 90 then c.toNat + 32 else c.toNat := by
  unfold pyLowerChar
  by_cases h : 65 ≤ c.toNat ∧ c.toNat ≤ 90
  · rw [if_pos h, if_pos h]
    exact toNat_ofNat_valid (by omega)
  · rw [if_neg h, if_neg h]

theorem pySpaceNat_eq_false {n : Nat} (h1 : 65 ≤ n) (h2 : n ≤ 122) :
    pySpaceNat n = false := by
  unfold pySpaceNat
  simp only [Bool.or_eq_false_iff, Bool.and_eq_false_iff, decide_eq_false_iff_not,
    beq_eq_false_iff_ne, ne_eq]
  omega

theorem pySpace_pyLowerChar (c : Char) : pySpace (pyLowerChar c) = pySpace c := by
  unfold pySpace
  rw [pyLowerChar_toNat]
  by_cases h : 65 ≤ c.toNat ∧ c.toNat ≤ 90
  · rw [if_pos h, pySpaceNat_eq_false (by omega) (by omega),
      pySpaceNat_eq_false (by omega) (by omega)]
  · rw [if_neg h]

theorem pyLowerChar_of_not (c : Char) (h : ¬(65 ≤ c.toNat ∧ c.toNat ≤ 90)) :
    pyLowerChar c = c := by
  unfold pyLowerChar
  exact if_neg h

theorem pyLowerChar_idem (c : Char) : pyLowerChar (pyLowerChar c) = pyLowerChar c := by
  by_cases h : 65 ≤ c.toNat ∧ c.toNat ≤ 90
  · apply pyLowerChar_of_not
    rw [pyLowerChar_toNat, if_pos h]
    omega
  · rw [pyLowerChar_of_not c h]
    exact pyLowerChar_of_not c h

theorem pyStrip_map_lower (l : List Char) :
    pyStrip (l.map pyLowerChar) = (pyStrip l).map pyLowerChar := by
  have hp : (pySpace ∘ pyLowerChar) = pySpace := funext fun c => pySpace_pyLowerChar c
  unfold pyStrip List.rdropWhile
  simp only [List.dropWhile_map, hp, ← List.map_reverse]

theorem pyStrip_idem (l : List Char) : pyStrip (pyStrip l) = pyStrip l := by
  unfold pyStrip
  have hpre := List.rdropWhile_prefix pySpace (List.dropWhile pySpace l)
  have h1 : List.dropWhile pySpace (List.rdropWhile pySpace (List.dropWhile pySpace l)) =
      List.rdropWhile pySpace (List.dropWhile pySpace l) := by
    rw [List.dropWhile_eq_self_iff]
    intro hl
    have hlen : 0 < (List.dropWhile pySpace l).length :=
      Nat.lt_of_lt_of_le hl hpre.length_le
    have h0 := List.dropWhile_get_zero_not pySpace l hlen
    rw [List.get_eq_getElem] at h0 ⊢
    rw [ hpre.getElem hl]
    exact h0
  rw [h1, List.rdropWhile_idempotent]

theorem pyStripLower_idem (s : String) : pyStripLower (pyStripLower s) = pyStripLower s := by
  have hmap : (pyLowerChar ∘ pyLowerChar) = pyLowerChar := funext fun c => pyLowerChar_idem c
  show String.mk (List.map pyLowerChar (pyStrip (List.map pyLowerChar (pyStrip s.data)))) =
    String.mk (List.map pyLowerChar (pyStrip s.data))
  rw [pyStrip_map_lower, pyStrip_idem, List.map_map, hmap]

/- Branch lemmas for cmd_request, one per outcome, shared by the claims. -/

theorem cmd_request_plan_pos (model : String) (tokens : Int) (file : Option QuotaState)
    (today : String) (h : 0 < (load_state file today).plan_tokens_left) :
    cmd_request model tokens file today = (Decision.deniedByPlan, file) := by
  simp only [cmd_request]
  rw [if_pos h]

theorem cmd_request_unknown (model : String) (tokens : Int) (file : Option QuotaState)
    (today : String) (h : (load_state file today).plan_tokens_left ≤ 0)
    (hb : bucket_for_model (pyStripLower model) = none) :
    cmd_request model tokens file today = (Decision.deniedUnknownResource, file) := by
  simp only [cmd_request, hb]
  rw [if_neg (not_lt.mpr h)]

theorem cmd_request_invalid (model : String) (tokens : Int) (file : Option QuotaState)
    (today : String) (b : String) (h : (load_state file today).plan_tokens_left ≤ 0)
    (hb : bucket_for_model (pyStripLower model) = some b) (ht : tokens ≤ 0) :
    cmd_request model tokens file today = (Decision.deniedInvalidCost, file) := by
  simp only [cmd_request, hb]
  rw [if_neg (not_lt.mpr h), if_pos ht]

theorem cmd_request_over (model : String) (tokens : Int) (file : Option QuotaState)
    (today : String) (b : String) (h : (load_state file today).plan_tokens_left ≤ 0)
    (hb : bucket_for_model (pyStripLower model) = some b) (ht : 0 < tokens)
    (hr : dictGet (load_state file today).buckets b 0 < tokens) :
    cmd_request model tokens file today =
      (Decision.deniedOverLimit (dictGet (load_state file today).buckets b 0), file) := by
  simp only [cmd_request, hb]
  rw [if_neg (not_lt.mpr h), if_neg (not_le.mpr ht), if_pos hr]

theorem cmd_request_admits (model : String) (tokens : Int) (file : Option QuotaState)
    (today : String) (b : String) (h : (load_state file today).plan_tokens_left ≤ 0)
    (hb : bucket_for_model (pyStripLower model) = some b) (ht : 0 < tokens)
    (hr : tokens ≤ dictGet (load_state file today).buckets b 0) :
    cmd_request model tokens file today =
      (Decision.admitted b (dictGet (load_state file today).buckets b 0 - tokens),
       some (save_stamp { load_state file today with
         buckets := dictSet (load_state file today).buckets b
           (dictGet (load_state file today).buckets b 0 - tokens) } today)) := by
  simp only [cmd_request, hb]
  rw [if_neg (not_lt.mpr h), if_neg (not_le.mpr ht), if_neg (not_lt.mpr hr)]

theorem dictGet_nonneg (b : Buckets) (k : String) (h : ∀ kv ∈ b, 0 ≤ kv.2) :
    0 ≤ dictGet b k 0 := by
  unfold dictGet
  cases hf : b.find? (fun kv => kv.1 == k) with
  | none => simp
  | some kv => exact h kv (List.mem_of_find?_eq_some hf)

/-- C1: cmd_request performs its checks in the fixed source order (plan
allowance, then resource recognition, then cost validity, then balance),
produces exactly the one decision its guards select, and changes the
persisted file only on the admitted branch, where the single bucket debit is
saved. -/
theorem cmd_request_check_order (model : String) (tokens : Int) (file : Option QuotaState)
    (today : String) :
    (0 < (load_state file today).plan_tokens_left →
      cmd_request model tokens file today = (Decision.deniedByPlan, file)) ∧
    ((load_state file today).plan_tokens_left ≤ 0 →
      bucket_for_model (pyStripLower model) = none →
      cmd_request model tokens file today = (Decision.deniedUnknownResource, file)) ∧
    (∀ b, (load_state file today).plan_tokens_left ≤ 0 →
      bucket_for_model (pyStripLower model) = some b → tokens ≤ 0 →
      cmd_request model tokens file today = (Decision.deniedInvalidCost, file)) ∧
    (∀ b, (load_state file today).plan_tokens_left ≤ 0 →
      bucket_for_model (pyStripLower model) = some b → 0 < tokens →
      dictGet (load_state file today).buckets b 0 < tokens →
      cmd_request model tokens file today =
        (Decision.deniedOverLimit (dictGet (load_state file today).buckets b 0), file)) ∧
    (∀ b, (load_state file today).plan_tokens_left ≤ 0 →
      bucket_for_model (pyStripLower model) = some b → 0 < tokens →
      tokens ≤ dictGet (load_state file today).buckets b 0 →
      cmd_request model tokens file today =
        (Decision.admitted b (dictGet (load_state file today).buckets b 0 - tokens),
         some (save_stamp { load_state file today with
           buckets := dictSet (load_state file today).buckets b
             (dictGet (load_state file today).buckets b 0 - tokens) } today))) :=
  ⟨fun h => cmd_request_plan_pos model tokens file today h,
   fun h hb => cmd_request_unknown model tokens file today h hb,
   fun b h hb ht => cmd_request_invalid model tokens file today b h hb ht,
   fun b h hb ht hr => cmd_request_over model tokens file today b h hb ht hr,
   fun b h hb ht hr => cmd_request_admits model tokens file today b h hb ht hr⟩

/-- Witness for C1: a fresh state admits a 100-token gpt-5 request, debiting
the 250k bucket once and persisting exactly that debit. -/
theorem cmd_request_check_order_witness :
    cmd_request "gpt-5" 100 none "2026-10-12" =
      (Decision.admitted "tokens_250k" 249900,
       some ⟨"2026-10-12", [("tokens_250k", 249900), ("tokens_2_5m", 2500000)], 0⟩) := by
  have h := (cmd_request_check_order "gpt-5" 100 none "2026-10-12").2.2.2.2 "tokens_250k"
    (by decide) (by decide) (by decide) (by decide)
  exact h.trans (by decide)

/-- C2: whenever the loaded state has positive plan_tokens_left, cmd_request
returns the plan denial with exit status 1 and the file is unchanged,
whatever the model string and requested cost are. -/
theorem plan_short_circuit (model : String) (tokens : Int) (file : Option QuotaState)
    (today : String) (h : 0 < (load_state file today).plan_tokens_left) :
    cmd_request model tokens file today = (Decision.deniedByPlan, file) ∧
    decisionExit (cmd_request model tokens file today).1 = 1 := by
  have he := cmd_request_plan_pos model tokens file today h
  exact ⟨he, by rw [he]; rfl⟩

/-- Witness for C2: with 7 plan tokens left even an unknown model and a
negative cost are denied by plan and nothing is written. -/
theorem plan_short_circuit_witness :
    cmd_request "no-such-model" (-3) (some ⟨"2026-10-12", [], 7⟩) "2026-10-12" =
      (Decision.deniedByPlan, some ⟨"2026-10-12", [], 7⟩) :=
  (plan_short_circuit "no-such-model" (-3) (some ⟨"2026-10-12", [], 7⟩) "2026-10-12"
    (by decide)).1

/-- C3: starting from non-negative bucket balances, a request above the
bucket's remaining balance is denied without touching the file (with the
over-limit decision once the earlier checks pass), and the admitted branch
debits exactly the requested amount, leaving a non-negative balance; the only
write is that single full debit. -/
theorem admission_nonneg (model : String) (tokens : Int) (file : Option QuotaState)
    (today : String) (h : ∀ kv ∈ (load_state file today).buckets, 0 ≤ kv.2) :
    (∀ b, bucket_for_model (pyStripLower model) = some b →
      dictGet (load_state file today).buckets b 0 < tokens →
      (cmd_request model tokens file today).1.isAdmitted = false ∧
      (cmd_request model tokens file today).2 = file ∧
      ((load_state file today).plan_tokens_left ≤ 0 →
        (cmd_request model tokens file today).1 =
          Decision.deniedOverLimit (dictGet (load_state file today).buckets b 0))) ∧
    (∀ b r, (cmd_request model tokens file today).1 = Decision.admitted b r →
      r = dictGet (load_state file today).buckets b 0 - tokens ∧ 0 ≤ r ∧
      (cmd_request model tokens file today).2 =
        some (save_stamp { load_state file today with
          buckets := dictSet (load_state file today).buckets b r } today)) := by
  constructor
  · intro b hb hrem
    have h0 : 0 ≤ dictGet (load_state file today).buckets b 0 := dictGet_nonneg _ _ h
    by_cases hp : 0 < (load_state file today).plan_tokens_left
    · rw [cmd_request_plan_pos model tokens file today hp]
      exact ⟨rfl, rfl, fun hle => absurd hp (by omega)⟩
    · have hp1 : (load_state file today).plan_tokens_left ≤ 0 := by omega
      rw [cmd_request_over model tokens file today b hp1 hb (by omega) hrem]
      exact ⟨rfl, rfl, fun _ => rfl⟩
  · intro b r hadm
    by_cases hp : 0 < (load_state file today).plan_tokens_left
    · rw [cmd_request_plan_pos model tokens file today hp] at hadm
      simp at hadm
    · have hp1 : (load_state file today).plan_tokens_left ≤ 0 := by omega
      cases hbk : bucket_for_model (pyStripLower model) with
      | none =>
        rw [cmd_request_unknown model tokens file today hp1 hbk] at hadm
        simp at hadm
      | some b0 =>
        by_cases ht : tokens ≤ 0
        · rw [cmd_request_invalid model tokens file today b0 hp1 hbk ht] at hadm
          simp at hadm
        · have ht1 : 0 < tokens := by omega
          by_cases hr : dictGet (load_state file today).buckets b0 0 < tokens
          · rw [cmd_request_over model tokens file today b0 hp1 hbk ht1 hr] at hadm
            simp at hadm
          · have hr1 : tokens ≤ dictGet (load_state file today).buckets b0 0 := by omega
            have he := cmd_request_admits model tokens file today b0 hp1 hbk ht1 hr1
            rw [he] at hadm
            simp only [Decision.admitted.injEq] at hadm
            obtain ⟨rfl, rfl⟩ := hadm
            refine ⟨rfl, by omega, ?_⟩
            rw [he]

/-- Witness for C3: a 250001-token request on a fresh 250k bucket is denied
over limit. -/
theorem admission_nonneg_witness :
    (cmd_request "gpt-5" 250001 none "2026-10-12").1 = Decision.deniedOverLimit 250000 := by
  have h := ((admission_nonneg "gpt-5" 250001 none "2026-10-12" (by decide)).1 "tokens_250k"
    (by decide) (by decide)).2.2 (by decide)
  exact h.trans (by decide)

/-- C5: with a different stored date, rollover yields a record dated today
whose buckets are all back at their registry daily limits while
plan_tokens_left is carried over unchanged; with an equal date the record is
returned unchanged apart from default-filling registry buckets missing from
its key set. -/
theorem reconcile_rollover_spec (r : QuotaState) (d : String) :
    (r.date ≠ d →
      reconcile r d =
        { date := d, buckets := DAILY_LIMITS, plan_tokens_left := r.plan_tokens_left }) ∧
    (r.date = d → reconcile r d = { r with buckets := fillDefaults r.buckets }) := by
  constructor
  · intro h
    unfold reconcile
    rw [if_neg h]
    have hfd : fillDefaults DAILY_LIMITS = DAILY_LIMITS := by decide
    simp [default_state, hfd]
  · intro h
    exact reconcile_of_date_eq r d h

/-- Witness for C5: a stale record with a drained bucket and 500 plan tokens
rolls over to full buckets with the 500 kept. -/
theorem reconcile_rollover_spec_witness :
    reconcile ⟨"2026-10-11", [("tokens_250k", 10)], 500⟩ "2026-10-12" =
      ⟨"2026-10-12", DAILY_LIMITS, 500⟩ :=
  (reconcile_rollover_spec ⟨"2026-10-11", [("tokens_250k", 10)], 500⟩ "2026-10-12").1
    (by decide)

/-- C6: the claim fails on the code. load_state recovers to the fresh
default record (dated today, full buckets, zero plan tokens) only for the
contents whose exceptions its except clause names — file absent, IOError on
read, json.JSONDecodeError — while two structurally invalid contents are
fatal: bytes that are not valid UTF-8 raise an uncaught UnicodeDecodeError
and a valid JSON document that is not an object raises an uncaught
AttributeError at state.get, so corruption can block an admission decision. -/
theorem load_state_crash_cases (today : String) :
    load_state_total RawContent.missing today = PyResult.ok (default_state today) ∧
    load_state_total RawContent.readFailed today = PyResult.ok (default_state today) ∧
    load_state_total RawContent.jsonMalformed today = PyResult.ok (default_state today) ∧
    load_state_total RawContent.badEncoding today = PyResult.raised "UnicodeDecodeError" ∧
    load_state_total RawContent.nonDict today = PyResult.raised "AttributeError" ∧
    default_state today = { date := today, buckets := DAILY_LIMITS, plan_tokens_left := 0 } :=
  ⟨rfl, rfl, rfl, rfl, rfl, rfl⟩

/-- C7: cmd_set_plan rejects a negative count with exit 1 and no write, and
otherwise persists the loaded record with plan_tokens_left set to exactly the
given count. -/
theorem set_plan_spec (n : Int) (file : Option QuotaState) (today : String) :
    (n < 0 → cmd_set_plan n file today = (1, file)) ∧
    (0 ≤ n → cmd_set_plan n file today =
      (0, some { date := today, buckets := (load_state file today).buckets,
                 plan_tokens_left := n })) := by
  constructor
  · intro h
    simp only [cmd_set_plan]
    rw [if_pos h]
  · intro h
    simp only [cmd_set_plan]
    rw [if_neg (not_lt.mpr h)]
    rfl

/-- Witness for C7: setting -5 plan tokens is rejected and the file is kept;
setting 12 stores exactly 12. -/
theorem set_plan_spec_witness :
    cmd_set_plan (-5) none "2026-10-12" = (1, none) ∧
    cmd_set_plan 12 none "2026-10-12" =
      (0, some ⟨"2026-10-12", DAILY_LIMITS, 12⟩) := by
  constructor
  · exact (set_plan_spec (-5) none "2026-10-12").1 (by decide)
  · exact ((set_plan_spec 12 none "2026-10-12").2 (by decide)).trans (by decide)

/-- C8: cmd_reset writes a record dated today with every bucket back at its
registry daily limit and the loaded plan_tokens_left carried forward; the
rollover never changes plan_tokens_left, and neither does the record that
cmd_request writes. -/
theorem reset_spec (file : Option QuotaState) (today : String) :
    cmd_reset file today =
      (0, some { date := today, buckets := DAILY_LIMITS,
                 plan_tokens_left := (load_state file today).plan_tokens_left }) ∧
    (∀ r : QuotaState, (reconcile r today).plan_tokens_left = r.plan_tokens_left) ∧
    (∀ model tokens s, (cmd_request model tokens file today).2 = some s →
      s.plan_tokens_left = (load_state file today).plan_tokens_left) := by
  refine ⟨rfl, fun r => reconcile_plan_eq r today, ?_⟩
  intro model tokens s hs
  have hfile : ∀ hqs : file = some s,
      s.plan_tokens_left = (load_state file today).plan_tokens_left := by
    intro hqs
    subst hqs
    exact (reconcile_plan_eq s today).symm
  by_cases hp : 0 < (load_state file today).plan_tokens_left
  · rw [cmd_request_plan_pos model tokens file today hp] at hs
    exact hfile hs
  · have hp1 : (load_state file today).plan_tokens_left ≤ 0 := by omega
    cases hbk : bucket_for_model (pyStripLower model) with
    | none =>
      rw [cmd_request_unknown model tokens file today hp1 hbk] at hs
      exact hfile hs
    | some b0 =>
      by_cases ht : tokens ≤ 0
      · rw [cmd_request_invalid model tokens file today b0 hp1 hbk ht] at hs
        exact hfile hs
      · have ht1 : 0 < tokens := by omega
        by_cases hr : dictGet (load_state file today).buckets b0 0 < tokens
        · rw [cmd_request_over model tokens file today b0 hp1 hbk ht1 hr] at hs
          exact hfile hs
        · have hr1 : tokens ≤ dictGet (load_state file today).buckets b0 0 := by omega
          rw [cmd_request_admits model tokens file today b0 hp1 hbk ht1 hr1] at hs
          obtain rfl := (Option.some.inj hs).symm
          rfl

/-- Witness for C8: resetting a stale drained record restores full buckets
and keeps the 500 plan tokens. -/
theorem reset_spec_witness :
    cmd_reset (some ⟨"2026-10-11", [("tokens_250k", 10)], 500⟩) "2026-10-12" =
      (0, some ⟨"2026-10-12", DAILY_LIMITS, 500⟩) := by
  have h := (reset_spec (some ⟨"2026-10-11", [("tokens_250k", 10)], 500⟩) "2026-10-12").1
  exact h.trans (by decide)

/-- C9: cmd_request strips surrounding whitespace from the model name and
lowercases it before the allowlist lookup, so any input decides exactly as
its normalized form does. -/
theorem request_normalizes_model (model : String) (tokens : Int)
    (file : Option QuotaState) (today : String) :
    cmd_request model tokens file today = cmd_request (pyStripLower model) tokens file today := by
  simp only [cmd_request, pyStripLower_idem]

/-- C10: every denied cmd_request call leaves the file content exactly as it
was, including a stale date that load_state rolled over only in memory. -/
theorem denied_leaves_file_untouched (model : String) (tokens : Int)
    (file : Option QuotaState) (today : String)
    (h : (cmd_request model tokens file today).1.isAdmitted = false) :
    (cmd_request model tokens file today).2 = file := by
  by_cases hp : 0 < (load_state file today).plan_tokens_left
  · rw [cmd_request_plan_pos model tokens file today hp]
  · have hp1 : (load_state file today).plan_tokens_left ≤ 0 := by omega
    cases hbk : bucket_for_model (pyStripLower model) with
    | none => rw [cmd_request_unknown model tokens file today hp1 hbk]
    | some b0 =>
      by_cases ht : tokens ≤ 0
      · rw [cmd_request_invalid model tokens file today b0 hp1 hbk ht]
      · have ht1 : 0 < tokens := by omega
        by_cases hr : dictGet (load_state file today).buckets b0 0 < tokens
        · rw [cmd_request_over model tokens file today b0 hp1 hbk ht1 hr]
        · exfalso
          rw [cmd_request_admits model tokens file today b0 hp1 hbk ht1 (by omega)] at h
          simp [Decision.isAdmitted] at h

/-- Witness for C10: a denied request (stale file, model unknown) keeps the
stale record byte-for-byte, old date and balances included. -/
theorem denied_leaves_file_untouched_witness :
    (cmd_request "gpt-1" 5 (some ⟨"2026-10-11", [("tokens_250k", 10)], 0⟩) "2026-10-12").2 =
      some ⟨"2026-10-11", [("tokens_250k", 10)], 0⟩ :=
  denied_leaves_file_untouched "gpt-1" 5 (some ⟨"2026-10-11", [("tokens_250k", 10)], 0⟩)
    "2026-10-12" (by decide)

end QuotaGuard
